import Mathlib

/-!
Verification of the session/authentication core of the UsersPermissionsFrontend
client (an RBAC admin frontend).  The definitions below are a shallow embedding
of the source:

* `hasPermission`                    — components/Sidebar's permission check;
* `AuthStore.*`                      — the zustand auth store in store/authStore
  (login, logout, setUser, setTokens, refreshAccessToken, checkAuth), with the
  js-cookie token mirror modelled as an explicit `CookieJar` field;
* `Gateway.runRequest`               — the axios response-interceptor 401 /
  refresh / single-retry state machine of services/api.ts.

Network I/O is modelled by passing the endpoint responses as explicit
parameters (with `Option` capturing a rejected call), and JavaScript string
truthiness (`""` is falsy) by the `truthy` predicate.
-/

namespace UsersPermissions

/-- Permission record (types `Permission`): `_id`, `name`, `resource`,
`action`; the optional description and timestamps are never read by the core
logic and are omitted. -/
structure Permission where
  id : String
  name : String
  resource : String
  action : String
deriving DecidableEq

/-- Role record (types `Role`): embedded permission list plus the `isActive`
flag (other fields are never read by the permission check). -/
structure Role where
  id : String
  name : String
  permissions : List Permission
  isActive : Bool
deriving DecidableEq

/-- User record (types `User`), with the denormalized role copies. -/
structure User where
  id : String
  email : String
  firstName : String
  lastName : String
  roles : List Role
  isActive : Bool
deriving DecidableEq

/-- JavaScript truthiness of a possibly-absent string value: `undefined`/`null`
and the empty string are falsy. -/
def truthy : Option String → Bool
  | none => false
  | some s => !(s == "")

/-- The template literal built inside Sidebar's check:
the joined `resource:action` key of a permission. -/
def permissionKey (p : Permission) : String :=
  p.resource ++ ":" ++ p.action

/-- Sidebar's `hasPermission` (components/Sidebar): false when no user is set;
otherwise some role has some permission whose joined key equals the requested
permission string, or whose `action` is the literal `"manage"`. -/
def hasPermission (user : Option User) (permission : String) : Bool :=
  match user with
  | none => false
  | some u =>
      u.roles.any fun role =>
        role.permissions.any fun p =>
          permissionKey p == permission || p.action == "manage"

/-- Spec-worded permission check, for comparison with the source's
`hasPermission` only: true when some role holds a permission whose `resource`
equals the requested resource and whose `action` equals the requested action or
the wildcard `"manage"` (i.e. the wildcard is scoped to the resource). -/
def specHasPermission (user : Option User) (resource action : String) : Bool :=
  match user with
  | none => false
  | some u =>
      u.roles.any fun role =>
        role.permissions.any fun p =>
          p.resource == resource && (p.action == action || p.action == "manage")

/-- Convenience constructor for concrete permissions used in examples. -/
def mkPermission (res act : String) : Permission :=
  { id := res ++ "." ++ act, name := res ++ " " ++ act, resource := res, action := act }

/-- A user whose single role holds only a `manage` permission on the resource
`"other"`. -/
def userManageOther : User :=
  { id := "u1", email := "a@b.c", firstName := "A", lastName := "B",
    roles := [{ id := "r1", name := "Ops", permissions := [mkPermission "other" "manage"],
                isActive := true }],
    isActive := true }

/-- A user whose single role holds the permission `system:manage`. -/
def userSystemManager : User :=
  { id := "u2", email := "s@b.c", firstName := "S", lastName := "M",
    roles := [{ id := "r2", name := "SysAdmin",
                permissions := [mkPermission "system" "manage"], isActive := true }],
    isActive := true }

/-- Claim C1, counterexample: the claim states that `hasPermission` grants only
when the permission's resource equals the requested resource; but for a user
holding only `manage` on resource `"other"`, the source's `hasPermission`
grants `user:create` while the spec-worded resource-scoped check denies it. -/
theorem hasPermission_resource_scoped_claim_false :
    hasPermission (some userManageOther) ("user" ++ ":" ++ "create") = true ∧
    specHasPermission (some userManageOther) "user" "create" = false := by
  decide

/-- Claim C1 (amended): for every identity and requested (resource, action)
pair, `hasPermission` returns false when no identity is set, and otherwise
returns true iff some role of the identity contains a permission whose joined
`resource:action` key equals the requested key, or whose action equals the
wildcard `"manage"` irrespective of its resource. -/
theorem hasPermission_characterization (u : Option User) (resource action : String) :
    hasPermission u (resource ++ ":" ++ action) = true ↔
      ∃ usr role p, u = some usr ∧ role ∈ usr.roles ∧ p ∈ role.permissions ∧
        (permissionKey p = resource ++ ":" ++ action ∨ p.action = "manage") := by
  cases u with
  | none =>
      simp [hasPermission]
  | some usr =>
      simp only [hasPermission, List.any_eq_true, Bool.or_eq_true, beq_iff_eq,
        Option.some.injEq]
      constructor
      · rintro ⟨role, hrole, p, hp, hkey⟩
        exact ⟨usr, role, p, rfl, hrole, hp, hkey⟩
      · rintro ⟨usr', role, p, husr, hrole, hp, hkey⟩
        cases husr
        exact ⟨role, hrole, p, hp, hkey⟩

/-- Claim C9: an identity holding a role that contains the permission
(resource `"system"`, action `"manage"`) satisfies every action check on
`"system"`. -/
theorem hasPermission_system_manage (u : User) (role : Role) (p : Permission)
    (a : String) (hrole : role ∈ u.roles) (hp : p ∈ role.permissions)
    (_hres : p.resource = "system") (hact : p.action = "manage") :
    hasPermission (some u) ("system" ++ ":" ++ a) = true := by
  simp only [hasPermission, List.any_eq_true, Bool.or_eq_true, beq_iff_eq]
  exact ⟨role, hrole, p, hp, Or.inr hact⟩

/-- Claim C9, witness: the concrete system manager passes the `delete` check
on `"system"`. -/
theorem hasPermission_system_manage_witness :
    hasPermission (some userSystemManager) ("system" ++ ":" ++ "delete") = true :=
  hasPermission_system_manage userSystemManager
    { id := "r2", name := "SysAdmin", permissions := [mkPermission "system" "manage"],
      isActive := true }
    (mkPermission "system" "manage") "delete" (by decide) (by decide) rfl rfl

/-- Two roles that agree on everything the permission check can read (they may
differ in `isActive`). -/
def Role.sameUpToActive (r s : Role) : Prop :=
  r.id = s.id ∧ r.name = s.name ∧ r.permissions = s.permissions

/-- Two users that differ at most in the `isActive` flags of the user itself
and of its roles. -/
def User.sameUpToActive (u v : User) : Prop :=
  u.id = v.id ∧ u.email = v.email ∧ u.firstName = v.firstName ∧
  u.lastName = v.lastName ∧ List.Forall₂ Role.sameUpToActive u.roles v.roles

/-- Role lists related by `Role.sameUpToActive` give the same answer to any
per-role check that reads only the permission list. -/
theorem roles_any_congr (f : List Permission → Bool) (l m : List Role)
    (h : List.Forall₂ Role.sameUpToActive l m) :
    (l.any fun role => f role.permissions) = (m.any fun role => f role.permissions) := by
  induction h with
  | nil => rfl
  | cons hr _tail ih =>
      obtain ⟨-, -, hperm⟩ := hr
      simp only [List.any_cons, hperm, ih]

/-- Claim C10: `hasPermission` is independent of every `isActive` flag — two
identities differing only in the `isActive` fields of the user and/or its
roles receive identical answers for every requested permission. -/
theorem hasPermission_isActive_independent (u v : User)
    (h : User.sameUpToActive u v) (perm : String) :
    hasPermission (some u) perm = hasPermission (some v) perm := by
  obtain ⟨-, -, -, -, hroles⟩ := h
  simp only [hasPermission]
  exact roles_any_congr
    (fun ps => ps.any fun p => permissionKey p == perm || p.action == "manage")
    u.roles v.roles hroles

/-- `userManageInactive` is `userManageOther` with the user and its role
deactivated. -/
def userManageInactive : User :=
  { id := "u1", email := "a@b.c", firstName := "A", lastName := "B",
    roles := [{ id := "r1", name := "Ops", permissions := [mkPermission "other" "manage"],
                isActive := false }],
    isActive := false }

/-- Claim C10, witness: deactivating the user and its role changes no answer,
and in particular the permission carried by the inactive role still grants. -/
theorem hasPermission_isActive_independent_witness :
    hasPermission (some userManageOther) ("user" ++ ":" ++ "create")
      = hasPermission (some userManageInactive) ("user" ++ ":" ++ "create") ∧
    hasPermission (some userManageInactive) ("user" ++ ":" ++ "create") = true := by
  refine ⟨hasPermission_isActive_independent userManageOther userManageInactive
    ⟨rfl, rfl, rfl, rfl, ?_⟩ _, by decide⟩
  exact List.Forall₂.cons ⟨rfl, rfl, rfl⟩ List.Forall₂.nil

/-- The js-cookie mirror of the credential pair (`accessToken` and
`refreshToken` cookies); `none` models an absent cookie. -/
structure CookieJar where
  accessToken : Option String
  refreshToken : Option String
deriving DecidableEq

/-- The zustand auth store's state, together with the cookie jar it reads and
writes. -/
structure AuthState where
  user : Option User
  accessToken : Option String
  refreshToken : Option String
  isAuthenticated : Bool
  isLoading : Bool
  cookies : CookieJar
deriving DecidableEq

/-- The payload of a successful POST /auth/login. -/
structure AuthData where
  user : User
  accessToken : String
  refreshToken : String
deriving DecidableEq

/-- The envelope returned by the login endpoint. -/
structure LoginResp where
  success : Bool
  message : Option String
  data : Option AuthData
deriving DecidableEq

/-- The payload of POST /auth/refresh. -/
structure RefreshData where
  accessToken : String
deriving DecidableEq

/-- The envelope returned by the refresh endpoint. -/
structure RefreshResp where
  success : Bool
  data : Option RefreshData
deriving DecidableEq

/-- Which internal error the catch block of `refreshAccessToken` observed. -/
inductive RefreshError where
  | noRefreshToken
  | tokenRefreshFailed
  | network
deriving DecidableEq

/-- The resolution of `refreshAccessToken`: `true` on success, or `false`
after catching an error (the store never rejects this promise). -/
inductive RefreshResult where
  | ok
  | failed (e : RefreshError)
deriving DecidableEq

namespace AuthStore

/-- The store's state as created (all fields null/false); the cookie jar's
initial content comes from the environment. -/
def initialState (c : CookieJar) : AuthState :=
  { user := none, accessToken := none, refreshToken := none,
    isAuthenticated := false, isLoading := false, cookies := c }

/-- `login(credentials)`: the endpoint's response is the `resp` parameter
(`none` models a rejected call).  On a successful envelope with data, both
cookies are set and the user plus both tokens are stored with
`isAuthenticated := true`; otherwise only `isLoading` is reset and the call
rethrows (second component `false`). -/
def login (s : AuthState) (resp : Option LoginResp) : AuthState × Bool :=
  match resp with
  | some r =>
      match r.success, r.data with
      | true, some d =>
          ({ user := some d.user,
             accessToken := some d.accessToken,
             refreshToken := some d.refreshToken,
             isAuthenticated := true,
             isLoading := false,
             cookies := { accessToken := some d.accessToken,
                          refreshToken := some d.refreshToken } }, true)
      | _, _ => ({ s with isLoading := false }, false)
  | none => ({ s with isLoading := false }, false)

/-- `logout()`: the best-effort POST /auth/logout outcome is `notifyFails`
(only issued when a refresh token is held); the `finally` block removes both
cookies and nulls the whole state on every path, so the result is independent
of both parameters. -/
def logout (s : AuthState) (notifyFails : Bool) : AuthState :=
  { user := none, accessToken := none, refreshToken := none,
    isAuthenticated := false, isLoading := false,
    cookies := { accessToken := none, refreshToken := none } }

/-- `setUser(user)`. -/
def setUser (s : AuthState) (u : User) : AuthState :=
  { s with user := some u }

/-- `setTokens(tokens)`: writes both cookies and both in-memory tokens and
sets `isAuthenticated := true`. -/
def setTokens (s : AuthState) (access refresh : String) : AuthState :=
  { s with accessToken := some access, refreshToken := some refresh,
           isAuthenticated := true,
           cookies := { accessToken := some access, refreshToken := some refresh } }

/-- `refreshAccessToken()`: throws (and catches) when the held refresh token
is falsy; otherwise calls the refresh endpoint (`resp`; `none` models a
rejected call).  A successful envelope with a truthy access token updates the
access-token cookie and the in-memory access token and resolves `true`; every
caught error triggers `logout()` and resolves `false`. -/
def refreshAccessToken (s : AuthState) (resp : Option RefreshResp) :
    AuthState × RefreshResult :=
  if truthy s.refreshToken then
    match resp with
    | none => (logout s false, .failed .network)
    | some r =>
        match r.data with
        | some d =>
            if r.success && truthy (some d.accessToken) then
              ({ s with accessToken := some d.accessToken,
                        isAuthenticated := true,
                        cookies := { s.cookies with accessToken := some d.accessToken } },
               .ok)
            else (logout s false, .failed .tokenRefreshFailed)
        | none => (logout s false, .failed .tokenRefreshFailed)
  else (logout s false, .failed .noRefreshToken)

/-- `checkAuth()`: reads both cookies; when both are truthy it restores the
tokens from the cookies, keeps the persisted user, and sets
`isAuthenticated := true`; otherwise it forces the fully logged-out in-memory
state (cookies untouched). -/
def checkAuth (s : AuthState) : AuthState :=
  if truthy s.cookies.accessToken && truthy s.cookies.refreshToken then
    { s with accessToken := s.cookies.accessToken,
             refreshToken := s.cookies.refreshToken,
             isAuthenticated := true }
  else
    { s with user := none, accessToken := none, refreshToken := none,
             isAuthenticated := false }

/-- States of the store reachable from creation by the store's operations,
with arbitrary endpoint responses. -/
inductive Reachable : AuthState → Prop where
  | init (c : CookieJar) : Reachable (initialState c)
  | login (s : AuthState) (resp : Option LoginResp) :
      Reachable s → Reachable (AuthStore.login s resp).1
  | logout (s : AuthState) (b : Bool) :
      Reachable s → Reachable (AuthStore.logout s b)
  | setUser (s : AuthState) (u : User) :
      Reachable s → Reachable (AuthStore.setUser s u)
  | setTokens (s : AuthState) (a r : String) :
      Reachable s → Reachable (AuthStore.setTokens s a r)
  | refresh (s : AuthState) (resp : Option RefreshResp) :
      Reachable s → Reachable (AuthStore.refreshAccessToken s resp).1
  | checkAuth (s : AuthState) :
      Reachable s → Reachable (AuthStore.checkAuth s)

end AuthStore

/-- The session-state invariant of the spec: authenticated exactly when both
tokens are held in memory. -/
def authInvariant (s : AuthState) : Prop :=
  s.isAuthenticated = (s.accessToken.isSome && s.refreshToken.isSome)

/-- A truthy optional string is present. -/
theorem truthy_isSome {o : Option String} (h : truthy o = true) : o.isSome := by
  cases o with
  | none => simp [truthy] at h
  | some s => rfl

/-- Claim C4: every state reachable by the store's operations (from the
initial state via login, logout, setUser, setTokens, refreshAccessToken,
checkAuth) satisfies the invariant `isAuthenticated` iff both tokens present. -/
theorem reachable_authInvariant (s : AuthState) (h : AuthStore.Reachable s) :
    authInvariant s := by
  induction h with
  | init c => rfl
  | login s resp _ ih =>
      cases resp with
      | none => simpa [AuthStore.login, authInvariant] using ih
      | some r =>
          cases hs : r.success <;> cases hd : r.data <;>
            simp_all [AuthStore.login, authInvariant]
  | logout s b _ _ => rfl
  | setUser s u _ ih => simpa [AuthStore.setUser, authInvariant] using ih
  | setTokens s a r _ _ => rfl
  | refresh s resp _ ih =>
      cases ht : truthy s.refreshToken with
      | false =>
          simp [AuthStore.refreshAccessToken, ht, AuthStore.logout, authInvariant]
      | true =>
          cases resp with
          | none =>
              simp [AuthStore.refreshAccessToken, ht, AuthStore.logout, authInvariant]
          | some r =>
              cases hd : r.data with
              | none =>
                  simp [AuthStore.refreshAccessToken, ht, hd, AuthStore.logout,
                    authInvariant]
              | some d =>
                  cases hc : (r.success && truthy (some d.accessToken)) with
                  | false =>
                      simp [AuthStore.refreshAccessToken, ht, hd, hc,
                        AuthStore.logout, authInvariant]
                  | true =>
                      have h2 := truthy_isSome ht
                      simp [AuthStore.refreshAccessToken, ht, hd, hc, authInvariant, h2]
  | checkAuth s _ ih =>
      cases hc : (truthy s.cookies.accessToken && truthy s.cookies.refreshToken) with
      | false => simp [AuthStore.checkAuth, hc, authInvariant]
      | true =>
          rw [Bool.and_eq_true] at hc
          have h1 := truthy_isSome hc.1
          have h2 := truthy_isSome hc.2
          simp [AuthStore.checkAuth, hc.1, hc.2, authInvariant, h1, h2]

/-- Claim C4, witness: the invariant holds at the freshly-created store. -/
theorem reachable_authInvariant_witness :
    authInvariant (AuthStore.initialState { accessToken := none, refreshToken := none }) :=
  reachable_authInvariant _ (AuthStore.Reachable.init _)

/-- Claim C5: with no refresh token in the session state, `refreshAccessToken`
fails with the no-refresh-token error. -/
theorem refreshAccessToken_no_refresh_token (s : AuthState)
    (resp : Option RefreshResp) (h : s.refreshToken = none) :
    (AuthStore.refreshAccessToken s resp).2 = .failed .noRefreshToken := by
  simp [AuthStore.refreshAccessToken, h, truthy]

/-- Claim C5, witness: concrete logged-out state, concrete response. -/
theorem refreshAccessToken_no_refresh_token_witness :
    (AuthStore.refreshAccessToken
      (AuthStore.initialState { accessToken := none, refreshToken := none })
      (some { success := true, data := some { accessToken := "A2" } })).2
      = .failed .noRefreshToken :=
  refreshAccessToken_no_refresh_token _ _ rfl

/-- Claim C2: from an authenticated state (both tokens held), a rejected or
unsuccessful refresh-endpoint response makes `refreshAccessToken` tear the
session down via `logout` and resolve with failure: not authenticated, and
both tokens cleared from memory and from the cookie jar. -/
theorem refreshAccessToken_failure_logs_out (s : AuthState)
    (resp : Option RefreshResp)
    (hacc : s.accessToken.isSome) (href : s.refreshToken.isSome)
    (hfail : resp = none ∨ ∃ r, resp = some r ∧ r.success = false) :
    (AuthStore.refreshAccessToken s resp).1 = AuthStore.logout s false ∧
    (∃ e, (AuthStore.refreshAccessToken s resp).2 = .failed e) ∧
    (AuthStore.refreshAccessToken s resp).1.isAuthenticated = false ∧
    (AuthStore.refreshAccessToken s resp).1.accessToken = none ∧
    (AuthStore.refreshAccessToken s resp).1.refreshToken = none ∧
    (AuthStore.refreshAccessToken s resp).1.cookies.accessToken = none ∧
    (AuthStore.refreshAccessToken s resp).1.cookies.refreshToken = none := by
  have hlog : ∀ e : RefreshError,
      (AuthStore.refreshAccessToken s resp) = (AuthStore.logout s false, .failed e) →
      (AuthStore.refreshAccessToken s resp).1 = AuthStore.logout s false ∧
      (∃ e, (AuthStore.refreshAccessToken s resp).2 = .failed e) ∧
      (AuthStore.refreshAccessToken s resp).1.isAuthenticated = false ∧
      (AuthStore.refreshAccessToken s resp).1.accessToken = none ∧
      (AuthStore.refreshAccessToken s resp).1.refreshToken = none ∧
      (AuthStore.refreshAccessToken s resp).1.cookies.accessToken = none ∧
      (AuthStore.refreshAccessToken s resp).1.cookies.refreshToken = none := by
    intro e he
    rw [he]
    exact ⟨rfl, ⟨e, rfl⟩, rfl, rfl, rfl, rfl, rfl⟩
  cases ht : truthy s.refreshToken with
  | false =>
      exact hlog .noRefreshToken (by simp [AuthStore.refreshAccessToken, ht])
  | true =>
      rcases hfail with hnone | ⟨r, hr, hrs⟩
      · exact hlog .network (by simp [AuthStore.refreshAccessToken, ht, hnone])
      · cases hd : r.data with
        | none =>
            exact hlog .tokenRefreshFailed
              (by simp [AuthStore.refreshAccessToken, ht, hr, hd])
        | some d =>
            exact hlog .tokenRefreshFailed
              (by simp [AuthStore.refreshAccessToken, ht, hr, hd, hrs])

/-- A concrete authenticated state used by the store witnesses. -/
def authedState : AuthState :=
  { user := some userSystemManager, accessToken := some "A", refreshToken := some "B",
    isAuthenticated := true, isLoading := false,
    cookies := { accessToken := some "A", refreshToken := some "B" } }

/-- Claim C2, witness: a rejected refresh call from the concrete authenticated
state. -/
theorem refreshAccessToken_failure_logs_out_witness :
    (AuthStore.refreshAccessToken authedState none).1 = AuthStore.logout authedState false ∧
    (∃ e, (AuthStore.refreshAccessToken authedState none).2 = .failed e) ∧
    (AuthStore.refreshAccessToken authedState none).1.isAuthenticated = false ∧
    (AuthStore.refreshAccessToken authedState none).1.accessToken = none ∧
    (AuthStore.refreshAccessToken authedState none).1.refreshToken = none ∧
    (AuthStore.refreshAccessToken authedState none).1.cookies.accessToken = none ∧
    (AuthStore.refreshAccessToken authedState none).1.cookies.refreshToken = none :=
  refreshAccessToken_failure_logs_out authedState none rfl rfl (Or.inl rfl)

/-- Claim C7: whenever `refreshAccessToken` resolves successfully from a state
holding a refresh token, it sets `isAuthenticated := true`, leaves the user,
the in-memory refresh token, the refresh-token cookie and `isLoading`
unchanged, and stores the endpoint's new access token both in memory and in
the access-token cookie. -/
theorem refreshAccessToken_success_frame (s : AuthState)
    (resp : Option RefreshResp) (href : s.refreshToken.isSome)
    (hok : (AuthStore.refreshAccessToken s resp).2 = .ok) :
    (AuthStore.refreshAccessToken s resp).1.isAuthenticated = true ∧
    (AuthStore.refreshAccessToken s resp).1.user = s.user ∧
    (AuthStore.refreshAccessToken s resp).1.refreshToken = s.refreshToken ∧
    (AuthStore.refreshAccessToken s resp).1.cookies.refreshToken
      = s.cookies.refreshToken ∧
    (AuthStore.refreshAccessToken s resp).1.isLoading = s.isLoading ∧
    ∃ r d, resp = some r ∧ r.data = some d ∧
      (AuthStore.refreshAccessToken s resp).1.accessToken = some d.accessToken ∧
      (AuthStore.refreshAccessToken s resp).1.cookies.accessToken
        = some d.accessToken := by
  cases ht : truthy s.refreshToken with
  | false => simp [AuthStore.refreshAccessToken, ht] at hok
  | true =>
      cases resp with
      | none => simp [AuthStore.refreshAccessToken, ht] at hok
      | some r =>
          cases hd : r.data with
          | none => simp [AuthStore.refreshAccessToken, ht, hd] at hok
          | some d =>
              cases hc : (r.success && truthy (some d.accessToken)) with
              | false => simp [AuthStore.refreshAccessToken, ht, hd, hc] at hok
              | true =>
                  refine ⟨?_, ?_, ?_, ?_, ?_, r, d, rfl, hd, ?_, ?_⟩ <;>
                    simp [AuthStore.refreshAccessToken, ht, hd, hc]

/-- Claim C7, witness: a successful refresh from the concrete authenticated
state. -/
theorem refreshAccessToken_success_frame_witness :
    (AuthStore.refreshAccessToken authedState
        (some { success := true, data := some { accessToken := "A2" } })).1.isAuthenticated
        = true ∧
    (AuthStore.refreshAccessToken authedState
        (some { success := true, data := some { accessToken := "A2" } })).1.user
        = authedState.user ∧
    (AuthStore.refreshAccessToken authedState
        (some { success := true, data := some { accessToken := "A2" } })).1.refreshToken
        = authedState.refreshToken ∧
    (AuthStore.refreshAccessToken authedState
        (some { success := true, data := some { accessToken := "A2" } })).1.cookies.refreshToken
        = authedState.cookies.refreshToken ∧
    (AuthStore.refreshAccessToken authedState
        (some { success := true, data := some { accessToken := "A2" } })).1.isLoading
        = authedState.isLoading ∧
    ∃ r d, (some { success := true, data := some { accessToken := "A2" } }
              : Option RefreshResp) = some r ∧ r.data = some d ∧
      (AuthStore.refreshAccessToken authedState
          (some { success := true, data := some { accessToken := "A2" } })).1.accessToken
          = some d.accessToken ∧
      (AuthStore.refreshAccessToken authedState
          (some { success := true, data := some { accessToken := "A2" } })).1.cookies.accessToken
          = some d.accessToken :=
  refreshAccessToken_success_frame authedState
    (some { success := true, data := some { accessToken := "A2" } }) rfl rfl

/-- Claim C8: for a login that succeeds (valid credentials), logging out
immediately afterwards returns the session state to the exact pre-login
shape: no identity, no tokens, not authenticated (and both cookies cleared). -/
theorem login_logout_returns_initial (s : AuthState) (r : LoginResp)
    (d : AuthData) (hs : r.success = true) (hd : r.data = some d) (b : Bool) :
    (AuthStore.login s (some r)).2 = true ∧
    AuthStore.logout (AuthStore.login s (some r)).1 b
      = AuthStore.initialState { accessToken := none, refreshToken := none } ∧
    (AuthStore.logout (AuthStore.login s (some r)).1 b).user = none ∧
    (AuthStore.logout (AuthStore.login s (some r)).1 b).accessToken = none ∧
    (AuthStore.logout (AuthStore.login s (some r)).1 b).refreshToken = none ∧
    (AuthStore.logout (AuthStore.login s (some r)).1 b).isAuthenticated = false := by
  refine ⟨?_, rfl, rfl, rfl, rfl, rfl⟩
  simp [AuthStore.login, hs, hd]

/-- Claim C8, witness: the scenario login from the spec followed by logout. -/
theorem login_logout_returns_initial_witness :
    (AuthStore.login
        (AuthStore.initialState { accessToken := none, refreshToken := none })
        (some { success := true, message := none,
                data := some { user := userSystemManager,
                               accessToken := "A", refreshToken := "B" } })).2 = true ∧
    AuthStore.logout
        (AuthStore.login
          (AuthStore.initialState { accessToken := none, refreshToken := none })
          (some { success := true, message := none,
                  data := some { user := userSystemManager,
                                 accessToken := "A", refreshToken := "B" } })).1 false
      = AuthStore.initialState { accessToken := none, refreshToken := none } ∧
    (AuthStore.logout
        (AuthStore.login
          (AuthStore.initialState { accessToken := none, refreshToken := none })
          (some { success := true, message := none,
                  data := some { user := userSystemManager,
                                 accessToken := "A", refreshToken := "B" } })).1 false).user
        = none ∧
    (AuthStore.logout
        (AuthStore.login
          (AuthStore.initialState { accessToken := none, refreshToken := none })
          (some { success := true, message := none,
                  data := some { user := userSystemManager,
                                 accessToken := "A", refreshToken := "B" } })).1 false).accessToken
        = none ∧
    (AuthStore.logout
        (AuthStore.login
          (AuthStore.initialState { accessToken := none, refreshToken := none })
          (some { success := true, message := none,
                  data := some { user := userSystemManager,
                                 accessToken := "A", refreshToken := "B" } })).1 false).refreshToken
        = none ∧
    (AuthStore.logout
        (AuthStore.login
          (AuthStore.initialState { accessToken := none, refreshToken := none })
          (some { success := true, message := none,
                  data := some { user := userSystemManager,
                                 accessToken := "A", refreshToken := "B" } })).1 false).isAuthenticated
        = false :=
  login_logout_returns_initial _ _
    { user := userSystemManager, accessToken := "A", refreshToken := "B" } rfl rfl false

namespace Gateway

/-- The resolution of one axios dispatch: `ok` for a 2xx response, `fail` for
a rejection carrying the optional HTTP status (`none` models a transport
failure with no response) and the optional server message. -/
inductive HttpResp where
  | ok
  | fail (status : Option Nat) (msg : Option String)
deriving DecidableEq

/-- The environment of one request lifecycle: the response to the first
dispatch, the refresh endpoint's envelope (`none` models a rejected refresh
call), and the response to the replayed dispatch, the last two consulted only
when the interceptor reaches them. -/
structure Env where
  firstResp : HttpResp
  refreshResp : Option RefreshResp
  retryResp : HttpResp
deriving DecidableEq

/-- The error value a caller's promise is rejected with. -/
inductive Error where
  | http (status : Option Nat) (msg : Option String)
  | noRefreshTokenThrown
  | refreshCallRejected
  | missingDataThrown
deriving DecidableEq

/-- How the original request's promise settles. -/
inductive Outcome where
  | success
  | error (e : Error)
deriving DecidableEq

/-- Observable result of one request lifecycle: the settlement, the bearer
token attached by each dispatch in order, the final cookie jar, and whether
the interceptor forced navigation to /login. -/
structure Result where
  outcome : Outcome
  bearers : List (Option String)
  cookies : CookieJar
  redirectedToLogin : Bool
deriving DecidableEq

/-- The request interceptor's bearer: the accessToken cookie when truthy. -/
def requestBearer (c : CookieJar) : Option String :=
  if truthy c.accessToken then c.accessToken else none

/-- The response-interceptor state machine of `setupInterceptors`
(services/api.ts) for one request, starting with the retried flag unset:

* non-401 errors (and 401s once the flag is set) are rejected as-is;
* a first 401 sets the flag and reads the refreshToken cookie; a falsy cookie
  throws, caught by the catch block (clear both cookies, redirect to /login,
  reject the thrown error);
* a rejected refresh call hits the same catch block;
* a refresh envelope with `success` false falls through to the generic
  handler, rejecting the original 401;
* a successful envelope without a data payload throws while destructuring and
  hits the catch block;
* otherwise the new access token is written to the cookie jar, attached as
  the bearer of the replay, and the request is replayed exactly once; the
  replay's settlement (its own 401 included, since the flag is now set) is
  final. -/
def runRequest (c : CookieJar) (env : Env) : Result :=
  let b1 := requestBearer c
  match env.firstResp with
  | .ok => { outcome := .success, bearers := [b1], cookies := c,
             redirectedToLogin := false }
  | .fail status msg =>
      if status = some 401 then
        if truthy c.refreshToken then
          match env.refreshResp with
          | none =>
              { outcome := .error .refreshCallRejected, bearers := [b1],
                cookies := { accessToken := none, refreshToken := none },
                redirectedToLogin := true }
          | some r =>
              if r.success then
                match r.data with
                | some d =>
                    match env.retryResp with
                    | .ok =>
                        { outcome := .success,
                          bearers := [b1, some d.accessToken],
                          cookies := { c with accessToken := some d.accessToken },
                          redirectedToLogin := false }
                    | .fail st2 msg2 =>
                        { outcome := .error (.http st2 msg2),
                          bearers := [b1, some d.accessToken],
                          cookies := { c with accessToken := some d.accessToken },
                          redirectedToLogin := false }
                | none =>
                    { outcome := .error .missingDataThrown, bearers := [b1],
                      cookies := { accessToken := none, refreshToken := none },
                      redirectedToLogin := true }
              else
                { outcome := .error (.http status msg), bearers := [b1],
                  cookies := c, redirectedToLogin := false }
        else
          { outcome := .error .noRefreshTokenThrown, bearers := [b1],
            cookies := { accessToken := none, refreshToken := none },
            redirectedToLogin := true }
      else
        { outcome := .error (.http status msg), bearers := [b1],
          cookies := c, redirectedToLogin := false }

end Gateway

/-- Claim C3: a first 401 answered by a successful refresh replays the
request exactly once, with the fresh access token as its bearer; if the
replay is itself rejected with 401 the interceptor does not retry again and
that 401 settles the request; and no lifecycle ever dispatches more than
twice. -/
theorem gateway_single_retry (c : CookieJar) (env : Gateway.Env)
    (msg : Option String) (r : RefreshResp) (d : RefreshData)
    (href : truthy c.refreshToken = true)
    (h401 : env.firstResp = .fail (some 401) msg)
    (hr : env.refreshResp = some r) (hrs : r.success = true) (hrd : r.data = some d) :
    (Gateway.runRequest c env).bearers = [Gateway.requestBearer c, some d.accessToken] ∧
    (∀ m2, env.retryResp = .fail (some 401) m2 →
        (Gateway.runRequest c env).outcome = .error (.http (some 401) m2)) ∧
    (∀ (c2 : CookieJar) (env2 : Gateway.Env),
        (Gateway.runRequest c2 env2).bearers.length ≤ 2) := by
  refine ⟨?_, ?_, ?_⟩
  · cases hretry : env.retryResp <;>
      simp [Gateway.runRequest, h401, href, hr, hrs, hrd, hretry]
  · intro m2 hretry
    simp [Gateway.runRequest, h401, href, hr, hrs, hrd, hretry]
  · intro c2 env2
    cases h1 : env2.firstResp with
    | ok => simp [Gateway.runRequest, h1]
    | fail st m =>
        by_cases hst : st = some 401
        · cases ht : truthy c2.refreshToken with
          | false => simp [Gateway.runRequest, h1, hst, ht]
          | true =>
              cases h2 : env2.refreshResp with
              | none => simp [Gateway.runRequest, h1, hst, ht, h2]
              | some r2 =>
                  cases hs2 : r2.success with
                  | false => simp [Gateway.runRequest, h1, hst, ht, h2, hs2]
                  | true =>
                      cases hd2 : r2.data with
                      | none => simp [Gateway.runRequest, h1, hst, ht, h2, hs2, hd2]
                      | some d2 =>
                          cases h3 : env2.retryResp <;>
                            simp [Gateway.runRequest, h1, hst, ht, h2, hs2, hd2, h3]
        · simp [Gateway.runRequest, h1, hst]

/-- Claim C3, witness: cookies holding both tokens, a 401, a successful
refresh to token A2, and a second 401 on the replay. -/
theorem gateway_single_retry_witness :
    (Gateway.runRequest { accessToken := some "A", refreshToken := some "B" }
        { firstResp := .fail (some 401) (some "Unauthorized"),
          refreshResp := some { success := true, data := some { accessToken := "A2" } },
          retryResp := .fail (some 401) (some "Unauthorized") }).bearers
      = [Gateway.requestBearer { accessToken := some "A", refreshToken := some "B" },
         some "A2"] ∧
    (∀ m2, ({ firstResp := .fail (some 401) (some "Unauthorized"),
              refreshResp := some { success := true, data := some { accessToken := "A2" } },
              retryResp := .fail (some 401) (some "Unauthorized") } : Gateway.Env).retryResp
            = .fail (some 401) m2 →
        (Gateway.runRequest { accessToken := some "A", refreshToken := some "B" }
            { firstResp := .fail (some 401) (some "Unauthorized"),
              refreshResp := some { success := true, data := some { accessToken := "A2" } },
              retryResp := .fail (some 401) (some "Unauthorized") }).outcome
          = .error (.http (some 401) m2)) ∧
    (∀ (c2 : CookieJar) (env2 : Gateway.Env),
        (Gateway.runRequest c2 env2).bearers.length ≤ 2) :=
  gateway_single_retry { accessToken := some "A", refreshToken := some "B" } _
    (some "Unauthorized") { success := true, data := some { accessToken := "A2" } }
    { accessToken := "A2" } rfl rfl rfl rfl rfl

/-- Claim C6, counterexample: with a 401 and no refresh-token cookie, the
interceptor does not reject with the original authorization error — the
caller instead receives the locally thrown no-refresh-token error. -/
theorem gateway_401_original_error_claim_false :
    (Gateway.runRequest { accessToken := some "A", refreshToken := none }
        { firstResp := .fail (some 401) (some "Unauthorized"),
          refreshResp := none, retryResp := .ok }).outcome
      ≠ .error (.http (some 401) (some "Unauthorized")) ∧
    (Gateway.runRequest { accessToken := some "A", refreshToken := none }
        { firstResp := .fail (some 401) (some "Unauthorized"),
          refreshResp := none, retryResp := .ok }).outcome
      = .error .noRefreshTokenThrown := by
  decide

/-- Claim C6 (amended): a first 401 with a falsy refresh-token cookie fails
the original request immediately — no replay, the locally thrown
no-refresh-token error is propagated to the caller in place of the original
401 — and forces logout: both persisted tokens cleared and navigation to the
login entry point. -/
theorem gateway_401_no_refresh_token (c : CookieJar) (env : Gateway.Env)
    (msg : Option String) (h401 : env.firstResp = .fail (some 401) msg)
    (href : truthy c.refreshToken = false) :
    (Gateway.runRequest c env).outcome = .error .noRefreshTokenThrown ∧
    (Gateway.runRequest c env).bearers = [Gateway.requestBearer c] ∧
    (Gateway.runRequest c env).cookies
      = { accessToken := none, refreshToken := none } ∧
    (Gateway.runRequest c env).redirectedToLogin = true := by
  refine ⟨?_, ?_, ?_, ?_⟩ <;> simp [Gateway.runRequest, h401, href]

/-- Claim C6 (amended), witness: a 401 with no refresh-token cookie. -/
theorem gateway_401_no_refresh_token_witness :
    (Gateway.runRequest { accessToken := some "A", refreshToken := none }
        { firstResp := .fail (some 401) (some "Unauthorized"),
          refreshResp := none, retryResp := .ok }).outcome
      = .error .noRefreshTokenThrown ∧
    (Gateway.runRequest { accessToken := some "A", refreshToken := none }
        { firstResp := .fail (some 401) (some "Unauthorized"),
          refreshResp := none, retryResp := .ok }).bearers
      = [Gateway.requestBearer { accessToken := some "A", refreshToken := none }] ∧
    (Gateway.runRequest { accessToken := some "A", refreshToken := none }
        { firstResp := .fail (some 401) (some "Unauthorized"),
          refreshResp := none, retryResp := .ok }).cookies
      = { accessToken := none, refreshToken := none } ∧
    (Gateway.runRequest { accessToken := some "A", refreshToken := none }
        { firstResp := .fail (some 401) (some "Unauthorized"),
          refreshResp := none, retryResp := .ok }).redirectedToLogin = true :=
  gateway_401_no_refresh_token _ _ (some "Unauthorized") rfl rfl

end UsersPermissions
